import Mathlib

/-!
Verification of the AutoPaySystem contract (rules/subscriptions registry with
FHE-backed threshold payments).  The contract state is embedded shallowly:
Solidity mappings become association lists looked up with the mapping's
default value, addresses and byte strings become Nat and List Nat, and the
external FHE library (ciphertext import, initialization check, decryption
signature verification, abi decoding) is an explicit environment of functions.
Every operation is a pure function from the pre-state and its arguments to
an Except result; the EVM's revert-on-failure semantics is the applyOp
wrapper that keeps the pre-state on error.
-/

namespace AutoPay

abbrev Address := Nat

abbrev Bytes := List Nat

abbrev Handle := Nat

/-- Mirror of struct PaymentRule in the contract. -/
structure PaymentRule where
  ruleId : String
  encryptedThreshold : Handle
  publicThreshold : Nat
  recipient : Address
  description : String
  creator : Address
  timestamp : Nat
  isActive : Bool
deriving DecidableEq

/-- Mirror of struct Subscription in the contract. -/
structure Subscription where
  subscriptionId : String
  ruleId : String
  subscriber : Address
  lastPaymentTimestamp : Nat
  isActive : Bool
deriving DecidableEq

/-- The three events the contract emits. -/
inductive Event where
  | PaymentRuleCreated : String → Address → Event
  | SubscriptionCreated : String → String → Address → Event
  | PaymentExecuted : String → String → Address → Event
deriving DecidableEq

/-- The error taxonomy of the design; each constructor corresponds to one
revert reason string of the contract (DuplicateId to the two already-exists
requires, NotFound to the does-not-exist requires, Unauthorized to the
only-creator and only-subscriber requires, InactiveEntity to the is-not-active
requires, InvalidCiphertext to the invalid-encrypted-input require,
InvalidProof to a checkSignatures failure or a malformed clear-value encoding,
ThresholdNotMet to the threshold-not-met require). -/
inductive ContractError where
  | DuplicateId
  | NotFound
  | Unauthorized
  | InactiveEntity
  | InvalidCiphertext
  | InvalidProof
  | ThresholdNotMet
deriving DecidableEq

/-- The external FHE capabilities the contract calls: FHE.fromExternal,
FHE.isInitialized, FHE.checkSignatures, and abi.decode of the clear value
as a uint32 (none when the encoding is malformed, in which case the EVM
call reverts). -/
structure FHEEnv where
  fromExternal : Nat → Bytes → Handle
  isInitialized : Handle → Bool
  checkSignatures : List Handle → Bytes → Bytes → Bool
  decodeU32 : Bytes → Option Nat

/-- Solidity mapping default for PaymentRule: all fields zero-initialized. -/
def defaultRule : PaymentRule :=
  { ruleId := "", encryptedThreshold := 0, publicThreshold := 0, recipient := 0,
    description := "", creator := 0, timestamp := 0, isActive := false }

/-- Solidity mapping default for Subscription: all fields zero-initialized. -/
def defaultSub : Subscription :=
  { subscriptionId := "", ruleId := "", subscriber := 0,
    lastPaymentTimestamp := 0, isActive := false }

/-- Lookup in an association list modelling a Solidity mapping. -/
def mapFind {α : Type} (m : List (String × α)) (k : String) : Option α :=
  match m with
  | [] => none
  | (k₁, v) :: rest => if k₁ = k then some v else mapFind rest k

/-- Assignment m[k] = v in a Solidity mapping: the new binding shadows any
old binding for the same key. -/
def mapInsert {α : Type} (m : List (String × α)) (k : String) (v : α) :
    List (String × α) :=
  (k, v) :: m

/-- The full contract storage: the three mappings, the two enumeration
arrays, and the log of emitted events. -/
structure State where
  paymentRules : List (String × PaymentRule)
  subscriptions : List (String × Subscription)
  ruleSubscriptions : List (String × List String)
  ruleIds : List String
  subscriptionIds : List String
  events : List Event
deriving DecidableEq

def emptyState : State :=
  { paymentRules := [], subscriptions := [], ruleSubscriptions := [],
    ruleIds := [], subscriptionIds := [], events := [] }

/-- paymentRules[ruleId], with the mapping's zero default. -/
def lookupRule (s : State) (ruleId : String) : PaymentRule :=
  (mapFind s.paymentRules ruleId).getD defaultRule

/-- subscriptions[subscriptionId], with the mapping's zero default. -/
def lookupSub (s : State) (subscriptionId : String) : Subscription :=
  (mapFind s.subscriptions subscriptionId).getD defaultSub

/-- ruleSubscriptions[ruleId], with the mapping's empty-array default. -/
def lookupRuleSubs (s : State) (ruleId : String) : List String :=
  (mapFind s.ruleSubscriptions ruleId).getD []

/-- The contract's existence test for a rule:
bytes(paymentRules[ruleId].ruleId).length > 0. -/
abbrev ruleExists (s : State) (ruleId : String) : Prop :=
  0 < (lookupRule s ruleId).ruleId.length

/-- The contract's existence test for a subscription:
bytes(subscriptions[subscriptionId].subscriptionId).length > 0. -/
abbrev subExists (s : State) (subscriptionId : String) : Prop :=
  0 < (lookupSub s subscriptionId).subscriptionId.length

/-- createPaymentRule, translated require-by-require from the contract.
FHE.allowThis and FHE.makePubliclyDecryptable act only on the FHE
coprocessor, not on contract storage, so they contribute no state change. -/
def createPaymentRule (env : FHEEnv) (s : State) (sender : Address) (now : Nat)
    (ruleId : String) (encryptedThreshold : Nat) (inputProof : Bytes)
    (publicThreshold : Nat) (recipient : Address) (description : String) :
    Except ContractError State :=
  if ruleExists s ruleId then .error .DuplicateId
  else if env.isInitialized (env.fromExternal encryptedThreshold inputProof) = true then
    .ok { s with
      paymentRules := mapInsert s.paymentRules ruleId
        { ruleId := ruleId,
          encryptedThreshold := env.fromExternal encryptedThreshold inputProof,
          publicThreshold := publicThreshold, recipient := recipient,
          description := description, creator := sender, timestamp := now,
          isActive := true },
      ruleIds := s.ruleIds ++ [ruleId],
      events := s.events ++ [Event.PaymentRuleCreated ruleId sender] }
  else .error .InvalidCiphertext

/-- createSubscription, translated require-by-require from the contract.
The caller identity and block timestamp are in scope for every external
Solidity function, but this function reads neither. -/
def createSubscription (s : State) (sender : Address) (now : Nat)
    (subscriptionId : String) (ruleId : String) (subscriber : Address) :
    Except ContractError State :=
  if subExists s subscriptionId then .error .DuplicateId
  else if ruleExists s ruleId then
    if (lookupRule s ruleId).isActive = true then
      .ok { s with
        subscriptions := mapInsert s.subscriptions subscriptionId
          { subscriptionId := subscriptionId, ruleId := ruleId,
            subscriber := subscriber, lastPaymentTimestamp := 0,
            isActive := true },
        ruleSubscriptions := mapInsert s.ruleSubscriptions ruleId
          (lookupRuleSubs s ruleId ++ [subscriptionId]),
        subscriptionIds := s.subscriptionIds ++ [subscriptionId],
        events := s.events ++ [Event.SubscriptionCreated subscriptionId ruleId subscriber] }
    else .error .InactiveEntity
  else .error .NotFound

/-- executePayment, translated require-by-require from the contract:
look up the subscription, check it and its rule are active, verify the
decryption proof against the rule's ciphertext handle, decode the clear
value, compare with the public threshold, then record the payment time and
emit the event. -/
def executePayment (env : FHEEnv) (s : State) (now : Nat)
    (subscriptionId : String) (abiEncodedClearValue : Bytes)
    (decryptionProof : Bytes) : Except ContractError State :=
  if subExists s subscriptionId then
    if (lookupSub s subscriptionId).isActive = true then
      if (lookupRule s (lookupSub s subscriptionId).ruleId).isActive = true then
        if env.checkSignatures
            [(lookupRule s (lookupSub s subscriptionId).ruleId).encryptedThreshold]
            abiEncodedClearValue decryptionProof = true then
          match env.decodeU32 abiEncodedClearValue with
          | some decodedValue =>
            if (lookupRule s (lookupSub s subscriptionId).ruleId).publicThreshold
                ≤ decodedValue then
              .ok { s with
                subscriptions := mapInsert s.subscriptions subscriptionId
                  { lookupSub s subscriptionId with lastPaymentTimestamp := now },
                events := s.events ++
                  [Event.PaymentExecuted subscriptionId
                    (lookupRule s (lookupSub s subscriptionId).ruleId).ruleId
                    (lookupRule s (lookupSub s subscriptionId).ruleId).recipient] }
            else .error .ThresholdNotMet
          | none => .error .InvalidProof
        else .error .InvalidProof
      else .error .InactiveEntity
    else .error .InactiveEntity
  else .error .NotFound

/-- disableRule, translated require-by-require from the contract. -/
def disableRule (s : State) (sender : Address) (ruleId : String) :
    Except ContractError State :=
  if ruleExists s ruleId then
    if sender = (lookupRule s ruleId).creator then
      .ok { s with
        paymentRules := mapInsert s.paymentRules ruleId
          { lookupRule s ruleId with isActive := false } }
    else .error .Unauthorized
  else .error .NotFound

/-- disableSubscription, translated require-by-require from the contract. -/
def disableSubscription (s : State) (sender : Address) (subscriptionId : String) :
    Except ContractError State :=
  if subExists s subscriptionId then
    if sender = (lookupSub s subscriptionId).subscriber then
      .ok { s with
        subscriptions := mapInsert s.subscriptions subscriptionId
          { lookupSub s subscriptionId with isActive := false } }
    else .error .Unauthorized
  else .error .NotFound

/-- The public-field view getPaymentRule returns (it omits the ciphertext). -/
structure RuleView where
  ruleId : String
  publicThreshold : Nat
  recipient : Address
  description : String
  creator : Address
  timestamp : Nat
  isActive : Bool
deriving DecidableEq

/-- getPaymentRule, translated from the contract. -/
def getPaymentRule (s : State) (ruleId : String) : Except ContractError RuleView :=
  if ruleExists s ruleId then
    .ok { ruleId := (lookupRule s ruleId).ruleId,
          publicThreshold := (lookupRule s ruleId).publicThreshold,
          recipient := (lookupRule s ruleId).recipient,
          description := (lookupRule s ruleId).description,
          creator := (lookupRule s ruleId).creator,
          timestamp := (lookupRule s ruleId).timestamp,
          isActive := (lookupRule s ruleId).isActive }
  else .error .NotFound

/-- getSubscription, translated from the contract. -/
def getSubscription (s : State) (subscriptionId : String) :
    Except ContractError (String × String × Address × Nat × Bool) :=
  if subExists s subscriptionId then
    .ok ((lookupSub s subscriptionId).subscriptionId,
         (lookupSub s subscriptionId).ruleId,
         (lookupSub s subscriptionId).subscriber,
         (lookupSub s subscriptionId).lastPaymentTimestamp,
         (lookupSub s subscriptionId).isActive)
  else .error .NotFound

/-- getRuleSubscriptions, translated from the contract. -/
def getRuleSubscriptions (s : State) (ruleId : String) :
    Except ContractError (List String) :=
  if ruleExists s ruleId then .ok (lookupRuleSubs s ruleId)
  else .error .NotFound

/-- getAllRuleIds, translated from the contract. -/
def getAllRuleIds (s : State) : List String := s.ruleIds

/-- getAllSubscriptionIds, translated from the contract. -/
def getAllSubscriptionIds (s : State) : List String := s.subscriptionIds

/-- isAvailable, translated from the contract. -/
def isAvailable : Bool := true

/-- One external mutating call, with the transaction context (msg.sender,
block.timestamp) and all call arguments. -/
inductive Op where
  | createRuleOp (sender : Address) (now : Nat) (ruleId : String)
      (encryptedThreshold : Nat) (inputProof : Bytes) (publicThreshold : Nat)
      (recipient : Address) (description : String) : Op
  | createSubOp (sender : Address) (now : Nat) (subscriptionId : String)
      (ruleId : String) (subscriber : Address) : Op
  | execPaymentOp (sender : Address) (now : Nat) (subscriptionId : String)
      (abiEncodedClearValue : Bytes) (decryptionProof : Bytes) : Op
  | disableRuleOp (sender : Address) (now : Nat) (ruleId : String) : Op
  | disableSubOp (sender : Address) (now : Nat) (subscriptionId : String) : Op

/-- Dispatch one call to the corresponding contract function. -/
def stepOp (env : FHEEnv) (s : State) : Op → Except ContractError State
  | .createRuleOp sender now ruleId ext inputProof pub recip desc =>
      createPaymentRule env s sender now ruleId ext inputProof pub recip desc
  | .createSubOp sender now subscriptionId ruleId subscriber =>
      createSubscription s sender now subscriptionId ruleId subscriber
  | .execPaymentOp _sender now subscriptionId clear proof =>
      executePayment env s now subscriptionId clear proof
  | .disableRuleOp sender _now ruleId => disableRule s sender ruleId
  | .disableSubOp sender _now subscriptionId =>
      disableSubscription s sender subscriptionId

/-- EVM transaction semantics: a reverting call leaves storage untouched. -/
def applyOp (env : FHEEnv) (s : State) (op : Op) : State :=
  match stepOp env s op with
  | .ok s₁ => s₁
  | .error _ => s

/-- Run a sequence of transactions in ledger order. -/
def run (env : FHEEnv) (s : State) (ops : List Op) : State :=
  ops.foldl (applyOp env) s

/-! ### Basic lemmas about the mapping embedding -/

theorem mapFind_insert_self {α : Type} (m : List (String × α)) (k : String)
    (v : α) : mapFind (mapInsert m k v) k = some v := by
  simp [mapFind, mapInsert]

theorem mapFind_insert_ne {α : Type} (m : List (String × α)) {k k₁ : String}
    (v : α) (h : k₁ ≠ k) : mapFind (mapInsert m k v) k₁ = mapFind m k₁ := by
  have h₂ : ¬ (k = k₁) := fun h₁ => h h₁.symm
  simp [mapFind, mapInsert, h₂]

theorem lookupRule_congr {s s₁ : State} (rid : String)
    (h : s₁.paymentRules = s.paymentRules) : lookupRule s₁ rid = lookupRule s rid := by
  simp [lookupRule, h]

theorem lookupSub_congr {s s₁ : State} (sid : String)
    (h : s₁.subscriptions = s.subscriptions) : lookupSub s₁ sid = lookupSub s sid := by
  simp [lookupSub, h]

/-! ### Shape lemmas: each operation's outcome under each guard pattern -/

theorem createPaymentRule_dup (env : FHEEnv) (s : State) (sender : Address)
    (now : Nat) (rid : String) (ext : Nat) (pf : Bytes) (pub : Nat)
    (recip : Address) (desc : String) (h : ruleExists s rid) :
    createPaymentRule env s sender now rid ext pf pub recip desc =
      .error .DuplicateId := by
  unfold createPaymentRule
  rw [if_pos h]

theorem createPaymentRule_ok (env : FHEEnv) (s : State) (sender : Address)
    (now : Nat) (rid : String) (ext : Nat) (pf : Bytes) (pub : Nat)
    (recip : Address) (desc : String) (h : ¬ ruleExists s rid)
    (h₁ : env.isInitialized (env.fromExternal ext pf) = true) :
    createPaymentRule env s sender now rid ext pf pub recip desc =
      .ok { s with
        paymentRules := mapInsert s.paymentRules rid
          { ruleId := rid, encryptedThreshold := env.fromExternal ext pf,
            publicThreshold := pub, recipient := recip, description := desc,
            creator := sender, timestamp := now, isActive := true },
        ruleIds := s.ruleIds ++ [rid],
        events := s.events ++ [Event.PaymentRuleCreated rid sender] } := by
  unfold createPaymentRule
  rw [if_neg h, if_pos h₁]

theorem createSubscription_dup (s : State) (sender : Address) (now : Nat)
    (sid rid : String) (subscriber : Address) (h : subExists s sid) :
    createSubscription s sender now sid rid subscriber = .error .DuplicateId := by
  unfold createSubscription
  rw [if_pos h]

theorem createSubscription_notFound (s : State) (sender : Address) (now : Nat)
    (sid rid : String) (subscriber : Address) (h : ¬ subExists s sid)
    (h₁ : ¬ ruleExists s rid) :
    createSubscription s sender now sid rid subscriber = .error .NotFound := by
  unfold createSubscription
  rw [if_neg h, if_neg h₁]

theorem createSubscription_inactive (s : State) (sender : Address) (now : Nat)
    (sid rid : String) (subscriber : Address) (h : ¬ subExists s sid)
    (h₁ : ruleExists s rid) (h₂ : ¬ ((lookupRule s rid).isActive = true)) :
    createSubscription s sender now sid rid subscriber = .error .InactiveEntity := by
  unfold createSubscription
  rw [if_neg h, if_pos h₁, if_neg h₂]

theorem createSubscription_ok (s : State) (sender : Address) (now : Nat)
    (sid rid : String) (subscriber : Address) (h : ¬ subExists s sid)
    (h₁ : ruleExists s rid) (h₂ : (lookupRule s rid).isActive = true) :
    createSubscription s sender now sid rid subscriber =
      .ok { s with
        subscriptions := mapInsert s.subscriptions sid
          { subscriptionId := sid, ruleId := rid, subscriber := subscriber,
            lastPaymentTimestamp := 0, isActive := true },
        ruleSubscriptions := mapInsert s.ruleSubscriptions rid
          (lookupRuleSubs s rid ++ [sid]),
        subscriptionIds := s.subscriptionIds ++ [sid],
        events := s.events ++ [Event.SubscriptionCreated sid rid subscriber] } := by
  unfold createSubscription
  rw [if_neg h, if_pos h₁, if_pos h₂]

theorem executePayment_notFound (env : FHEEnv) (s : State) (now : Nat)
    (sid : String) (clear proof : Bytes) (h : ¬ subExists s sid) :
    executePayment env s now sid clear proof = .error .NotFound := by
  unfold executePayment
  rw [if_neg h]

theorem executePayment_subInactive (env : FHEEnv) (s : State) (now : Nat)
    (sid : String) (clear proof : Bytes) (h : subExists s sid)
    (h₁ : ¬ ((lookupSub s sid).isActive = true)) :
    executePayment env s now sid clear proof = .error .InactiveEntity := by
  unfold executePayment
  rw [if_pos h, if_neg h₁]

theorem executePayment_ruleInactive (env : FHEEnv) (s : State) (now : Nat)
    (sid : String) (clear proof : Bytes) (h : subExists s sid)
    (h₁ : (lookupSub s sid).isActive = true)
    (h₂ : ¬ ((lookupRule s (lookupSub s sid).ruleId).isActive = true)) :
    executePayment env s now sid clear proof = .error .InactiveEntity := by
  unfold executePayment
  rw [if_pos h, if_pos h₁, if_neg h₂]

theorem executePayment_badProof (env : FHEEnv) (s : State) (now : Nat)
    (sid : String) (clear proof : Bytes) (h : subExists s sid)
    (h₁ : (lookupSub s sid).isActive = true)
    (h₂ : (lookupRule s (lookupSub s sid).ruleId).isActive = true)
    (h₃ : ¬ (env.checkSignatures
      [(lookupRule s (lookupSub s sid).ruleId).encryptedThreshold]
      clear proof = true)) :
    executePayment env s now sid clear proof = .error .InvalidProof := by
  unfold executePayment
  rw [if_pos h, if_pos h₁, if_pos h₂, if_neg h₃]

theorem executePayment_thresholdNotMet (env : FHEEnv) (s : State) (now : Nat)
    (sid : String) (clear proof : Bytes) (v : Nat) (h : subExists s sid)
    (h₁ : (lookupSub s sid).isActive = true)
    (h₂ : (lookupRule s (lookupSub s sid).ruleId).isActive = true)
    (h₃ : env.checkSignatures
      [(lookupRule s (lookupSub s sid).ruleId).encryptedThreshold]
      clear proof = true)
    (h₄ : env.decodeU32 clear = some v)
    (h₅ : v < (lookupRule s (lookupSub s sid).ruleId).publicThreshold) :
    executePayment env s now sid clear proof = .error .ThresholdNotMet := by
  unfold executePayment
  rw [if_pos h, if_pos h₁, if_pos h₂, if_pos h₃, h₄]
  simp only []
  rw [if_neg (Nat.not_le.mpr h₅)]

theorem executePayment_ok (env : FHEEnv) (s : State) (now : Nat)
    (sid : String) (clear proof : Bytes) (v : Nat) (h : subExists s sid)
    (h₁ : (lookupSub s sid).isActive = true)
    (h₂ : (lookupRule s (lookupSub s sid).ruleId).isActive = true)
    (h₃ : env.checkSignatures
      [(lookupRule s (lookupSub s sid).ruleId).encryptedThreshold]
      clear proof = true)
    (h₄ : env.decodeU32 clear = some v)
    (h₅ : (lookupRule s (lookupSub s sid).ruleId).publicThreshold ≤ v) :
    executePayment env s now sid clear proof =
      .ok { s with
        subscriptions := mapInsert s.subscriptions sid
          { lookupSub s sid with lastPaymentTimestamp := now },
        events := s.events ++
          [Event.PaymentExecuted sid
            (lookupRule s (lookupSub s sid).ruleId).ruleId
            (lookupRule s (lookupSub s sid).ruleId).recipient] } := by
  unfold executePayment
  rw [if_pos h, if_pos h₁, if_pos h₂, if_pos h₃, h₄]
  simp only []
  rw [if_pos h₅]

theorem disableRule_notFound (s : State) (sender : Address) (rid : String)
    (h : ¬ ruleExists s rid) : disableRule s sender rid = .error .NotFound := by
  unfold disableRule
  rw [if_neg h]

theorem disableRule_unauthorized (s : State) (sender : Address) (rid : String)
    (h : ruleExists s rid) (h₁ : sender ≠ (lookupRule s rid).creator) :
    disableRule s sender rid = .error .Unauthorized := by
  unfold disableRule
  rw [if_pos h, if_neg h₁]

theorem disableRule_ok (s : State) (sender : Address) (rid : String)
    (h : ruleExists s rid) (h₁ : sender = (lookupRule s rid).creator) :
    disableRule s sender rid =
      .ok { s with
        paymentRules := mapInsert s.paymentRules rid
          { lookupRule s rid with isActive := false } } := by
  unfold disableRule
  rw [if_pos h, if_pos h₁]

theorem disableSubscription_notFound (s : State) (sender : Address)
    (sid : String) (h : ¬ subExists s sid) :
    disableSubscription s sender sid = .error .NotFound := by
  unfold disableSubscription
  rw [if_neg h]

theorem disableSubscription_unauthorized (s : State) (sender : Address)
    (sid : String) (h : subExists s sid)
    (h₁ : sender ≠ (lookupSub s sid).subscriber) :
    disableSubscription s sender sid = .error .Unauthorized := by
  unfold disableSubscription
  rw [if_pos h, if_neg h₁]

theorem disableSubscription_ok (s : State) (sender : Address) (sid : String)
    (h : subExists s sid) (h₁ : sender = (lookupSub s sid).subscriber) :
    disableSubscription s sender sid =
      .ok { s with
        subscriptions := mapInsert s.subscriptions sid
          { lookupSub s sid with isActive := false } } := by
  unfold disableSubscription
  rw [if_pos h, if_pos h₁]

/-! ### Inversion lemmas: what a successful call implies about its guards
and its post-state -/

theorem createPaymentRule_ok_inv {env : FHEEnv} {s : State} {sender : Address}
    {now : Nat} {rid : String} {ext : Nat} {pf : Bytes} {pub : Nat}
    {recip : Address} {desc : String} {s₁ : State}
    (h : createPaymentRule env s sender now rid ext pf pub recip desc = .ok s₁) :
    ¬ ruleExists s rid ∧
    env.isInitialized (env.fromExternal ext pf) = true ∧
    s₁ = { s with
      paymentRules := mapInsert s.paymentRules rid
        { ruleId := rid, encryptedThreshold := env.fromExternal ext pf,
          publicThreshold := pub, recipient := recip, description := desc,
          creator := sender, timestamp := now, isActive := true },
      ruleIds := s.ruleIds ++ [rid],
      events := s.events ++ [Event.PaymentRuleCreated rid sender] } := by
  unfold createPaymentRule at h
  repeat' split at h
  all_goals cases h
  exact ⟨by assumption, by assumption, rfl⟩

theorem createSubscription_ok_inv {s : State} {sender : Address} {now : Nat}
    {sid rid : String} {subscriber : Address} {s₁ : State}
    (h : createSubscription s sender now sid rid subscriber = .ok s₁) :
    ¬ subExists s sid ∧ ruleExists s rid ∧
    (lookupRule s rid).isActive = true ∧
    s₁ = { s with
      subscriptions := mapInsert s.subscriptions sid
        { subscriptionId := sid, ruleId := rid, subscriber := subscriber,
          lastPaymentTimestamp := 0, isActive := true },
      ruleSubscriptions := mapInsert s.ruleSubscriptions rid
        (lookupRuleSubs s rid ++ [sid]),
      subscriptionIds := s.subscriptionIds ++ [sid],
      events := s.events ++ [Event.SubscriptionCreated sid rid subscriber] } := by
  unfold createSubscription at h
  repeat' split at h
  all_goals cases h
  exact ⟨by assumption, by assumption, by assumption, rfl⟩

theorem executePayment_ok_inv {env : FHEEnv} {s : State} {now : Nat}
    {sid : String} {clear proof : Bytes} {s₁ : State}
    (h : executePayment env s now sid clear proof = .ok s₁) :
    subExists s sid ∧ (lookupSub s sid).isActive = true ∧
    (lookupRule s (lookupSub s sid).ruleId).isActive = true ∧
    env.checkSignatures
      [(lookupRule s (lookupSub s sid).ruleId).encryptedThreshold]
      clear proof = true ∧
    (∃ v, env.decodeU32 clear = some v ∧
      (lookupRule s (lookupSub s sid).ruleId).publicThreshold ≤ v) ∧
    s₁ = { s with
      subscriptions := mapInsert s.subscriptions sid
        { lookupSub s sid with lastPaymentTimestamp := now },
      events := s.events ++
        [Event.PaymentExecuted sid
          (lookupRule s (lookupSub s sid).ruleId).ruleId
          (lookupRule s (lookupSub s sid).ruleId).recipient] } := by
  unfold executePayment at h
  repeat' split at h
  all_goals cases h
  exact ⟨by assumption, by assumption, by assumption, by assumption,
    ⟨_, by assumption, by assumption⟩, rfl⟩

theorem disableRule_ok_inv {s : State} {sender : Address} {rid : String}
    {s₁ : State} (h : disableRule s sender rid = .ok s₁) :
    ruleExists s rid ∧ sender = (lookupRule s rid).creator ∧
    s₁ = { s with
      paymentRules := mapInsert s.paymentRules rid
        { lookupRule s rid with isActive := false } } := by
  unfold disableRule at h
  repeat' split at h
  all_goals cases h
  exact ⟨by assumption, by assumption, rfl⟩

theorem disableSubscription_ok_inv {s : State} {sender : Address}
    {sid : String} {s₁ : State} (h : disableSubscription s sender sid = .ok s₁) :
    subExists s sid ∧ sender = (lookupSub s sid).subscriber ∧
    s₁ = { s with
      subscriptions := mapInsert s.subscriptions sid
        { lookupSub s sid with isActive := false } } := by
  unfold disableSubscription at h
  repeat' split at h
  all_goals cases h
  exact ⟨by assumption, by assumption, rfl⟩

/-! ### Transaction-level lemmas -/

theorem applyOp_of_error (env : FHEEnv) (s : State) (op : Op)
    (e : ContractError) (h : stepOp env s op = .error e) :
    applyOp env s op = s := by
  unfold applyOp
  rw [h]

theorem applyOp_of_ok (env : FHEEnv) (s : State) (op : Op) (s₁ : State)
    (h : stepOp env s op = .ok s₁) : applyOp env s op = s₁ := by
  unfold applyOp
  rw [h]

theorem run_append (env : FHEEnv) (s : State) (a b : List Op) :
    run env s (a ++ b) = run env (run env s a) b := by
  unfold run
  exact List.foldl_append _ _ _ _

/-- How one transaction can change a stored rule: not at all, or by
clearing its isActive flag. -/
def ruleEvolves (r r₁ : PaymentRule) : Prop :=
  r₁ = r ∨ r₁ = { r with isActive := false }

theorem ruleEvolves_refl (r : PaymentRule) : ruleEvolves r r := Or.inl rfl

theorem ruleEvolves_trans {r r₁ r₂ : PaymentRule} (h : ruleEvolves r r₁)
    (h₁ : ruleEvolves r₁ r₂) : ruleEvolves r r₂ := by
  rcases h with h | h
  · rcases h₁ with h₁ | h₁
    · exact Or.inl (h₁.trans h)
    · right
      rw [h₁, h]
  · rcases h₁ with h₁ | h₁
    · exact Or.inr (h₁.trans h)
    · right
      rw [h₁, h]

theorem ruleEvolves_fields {r r₁ : PaymentRule} (h : ruleEvolves r r₁) :
    r₁.ruleId = r.ruleId ∧ r₁.encryptedThreshold = r.encryptedThreshold ∧
    r₁.publicThreshold = r.publicThreshold ∧ r₁.recipient = r.recipient ∧
    r₁.description = r.description ∧ r₁.creator = r.creator ∧
    r₁.timestamp = r.timestamp ∧
    (r.isActive = false → r₁.isActive = false) := by
  rcases h with h | h <;> subst h
  · exact ⟨rfl, rfl, rfl, rfl, rfl, rfl, rfl, fun h₁ => h₁⟩
  · exact ⟨rfl, rfl, rfl, rfl, rfl, rfl, rfl, fun _ => rfl⟩

theorem applyOp_ruleEvolves (env : FHEEnv) (s : State) (op : Op) (rid : String)
    (h : ruleExists s rid) :
    ruleEvolves (lookupRule s rid) (lookupRule (applyOp env s op) rid) := by
  cases hstep : stepOp env s op with
  | error e =>
    rw [applyOp_of_error env s op e hstep]
    exact ruleEvolves_refl _
  | ok s₁ =>
    rw [applyOp_of_ok env s op s₁ hstep]
    cases op with
    | createRuleOp sender now rid₁ ext pf pub recip desc =>
      obtain ⟨hfresh, _, hs₁⟩ := createPaymentRule_ok_inv hstep
      subst hs₁
      left
      have hne : rid ≠ rid₁ := fun he => hfresh (he ▸ h)
      simp [lookupRule, mapInsert, mapFind, hne.symm]
    | createSubOp sender now sid₁ rid₁ subscriber =>
      have hstep₁ : createSubscription s sender now sid₁ rid₁ subscriber = .ok s₁ := hstep
      obtain ⟨_, _, _, hs₁⟩ := createSubscription_ok_inv hstep₁
      subst hs₁
      exact Or.inl rfl
    | execPaymentOp sender now sid₁ clear proof =>
      have hstep₁ : executePayment env s now sid₁ clear proof = .ok s₁ := hstep
      obtain ⟨_, _, _, _, _, hs₁⟩ := executePayment_ok_inv hstep₁
      subst hs₁
      exact Or.inl rfl
    | disableRuleOp sender now rid₁ =>
      obtain ⟨_, _, hs₁⟩ := disableRule_ok_inv hstep
      subst hs₁
      by_cases he : rid₁ = rid
      · subst he
        right
        simp [lookupRule, mapFind_insert_self]
      · left
        have hne : rid ≠ rid₁ := fun h₂ => he h₂.symm
        simp [lookupRule, mapInsert, mapFind, hne.symm]
    | disableSubOp sender now sid₁ =>
      have hstep₁ : disableSubscription s sender sid₁ = .ok s₁ := hstep
      obtain ⟨_, _, hs₁⟩ := disableSubscription_ok_inv hstep₁
      subst hs₁
      exact Or.inl rfl

theorem applyOp_ruleExists (env : FHEEnv) (s : State) (op : Op) (rid : String)
    (h : ruleExists s rid) : ruleExists (applyOp env s op) rid := by
  have h₁ := (ruleEvolves_fields (applyOp_ruleEvolves env s op rid h)).1
  show 0 < (lookupRule (applyOp env s op) rid).ruleId.length
  rw [h₁]
  exact h

theorem applyOp_subId (env : FHEEnv) (s : State) (op : Op) (sid : String)
    (h : subExists s sid) :
    (lookupSub (applyOp env s op) sid).subscriptionId =
      (lookupSub s sid).subscriptionId := by
  cases hstep : stepOp env s op with
  | error e =>
    rw [applyOp_of_error env s op e hstep]
  | ok s₁ =>
    rw [applyOp_of_ok env s op s₁ hstep]
    cases op with
    | createRuleOp sender now rid₁ ext pf pub recip desc =>
      obtain ⟨_, _, hs₁⟩ := createPaymentRule_ok_inv hstep
      subst hs₁
      rfl
    | createSubOp sender now sid₁ rid₁ subscriber =>
      have hstep₁ : createSubscription s sender now sid₁ rid₁ subscriber = .ok s₁ := hstep
      obtain ⟨hfresh, _, _, hs₁⟩ := createSubscription_ok_inv hstep₁
      subst hs₁
      have hne : sid ≠ sid₁ := fun he => hfresh (he ▸ h)
      simp [lookupSub, mapInsert, mapFind, hne.symm]
    | execPaymentOp sender now sid₁ clear proof =>
      have hstep₁ : executePayment env s now sid₁ clear proof = .ok s₁ := hstep
      obtain ⟨_, _, _, _, _, hs₁⟩ := executePayment_ok_inv hstep₁
      subst hs₁
      by_cases he : sid₁ = sid
      · subst he
        simp [lookupSub, mapFind_insert_self]
      · have hne : sid ≠ sid₁ := fun h₂ => he h₂.symm
        simp [lookupSub, mapInsert, mapFind, hne.symm]
    | disableRuleOp sender now rid₁ =>
      obtain ⟨_, _, hs₁⟩ := disableRule_ok_inv hstep
      subst hs₁
      rfl
    | disableSubOp sender now sid₁ =>
      have hstep₁ : disableSubscription s sender sid₁ = .ok s₁ := hstep
      obtain ⟨_, _, hs₁⟩ := disableSubscription_ok_inv hstep₁
      subst hs₁
      by_cases he : sid₁ = sid
      · subst he
        simp [lookupSub, mapFind_insert_self]
      · have hne : sid ≠ sid₁ := fun h₂ => he h₂.symm
        simp [lookupSub, mapInsert, mapFind, hne.symm]

theorem applyOp_subExists (env : FHEEnv) (s : State) (op : Op) (sid : String)
    (h : subExists s sid) : subExists (applyOp env s op) sid := by
  have h₁ := applyOp_subId env s op sid h
  show 0 < (lookupSub (applyOp env s op) sid).subscriptionId.length
  rw [h₁]
  exact h

theorem run_ruleEvolves (env : FHEEnv) (ops : List Op) (s : State)
    (rid : String) (h : ruleExists s rid) :
    ruleExists (run env s ops) rid ∧
    ruleEvolves (lookupRule s rid) (lookupRule (run env s ops) rid) := by
  induction ops generalizing s with
  | nil => exact ⟨h, ruleEvolves_refl _⟩
  | cons op rest ih =>
    have hstep := applyOp_ruleEvolves env s op rid h
    have hex := applyOp_ruleExists env s op rid h
    have hrest := ih (applyOp env s op) hex
    exact ⟨hrest.1, ruleEvolves_trans hstep hrest.2⟩

theorem run_subExists (env : FHEEnv) (ops : List Op) (s : State)
    (sid : String) (h : subExists s sid) : subExists (run env s ops) sid := by
  induction ops generalizing s with
  | nil => exact h
  | cons op rest ih => exact ih (applyOp env s op) (applyOp_subExists env s op sid h)

theorem length_pos_of_ne_empty {r : String} (h : r ≠ "") : 0 < r.length := by
  cases r with
  | mk data =>
    cases data with
    | nil => exact absurd rfl h
    | cons c cs => simp [String.length]

/-! ### Concrete fixtures used to instantiate the general theorems -/

/-- A deterministic stand-in for the FHE capabilities: ciphertext handles
are the raw input value, every import is initialized, a decryption proof
verifies exactly when it is the byte string [1], and a clear-value encoding
is a singleton byte list holding the value. -/
def envW : FHEEnv :=
  { fromExternal := fun c _ => c,
    isInitialized := fun _ => true,
    checkSignatures := fun _ _ proof => proof == [1],
    decodeU32 := fun b =>
      match b with
      | [v] => if v < 4294967296 then some v else none
      | _ => none }

/-- rule r1 (creator 1, publicThreshold 100, recipient 2) with active
subscription s1 (subscriber 3) and disabled subscription s2 (subscriber 4). -/
def opsW : List Op :=
  [Op.createRuleOp 1 10 "r1" 7 [0] 100 2 "d",
   Op.createSubOp 1 11 "s1" "r1" 3,
   Op.createSubOp 1 12 "s2" "r1" 4,
   Op.disableSubOp 4 13 "s2"]

def sW : State := run envW emptyState opsW

/-- sW after the creator disables rule r1: subscription s1 is still active
but its rule is not. -/
def sWr : State := applyOp envW sW (Op.disableRuleOp 1 14 "r1")

/-! ### The claims -/

/-- Claim C1: for every state and every executePayment call on an existing
active subscription of an active rule whose decryption proof verifies, if
the decoded clear value is strictly below the rule's publicThreshold the
call fails ThresholdNotMet and the state, in particular the subscription's
lastPaymentTimestamp, is unchanged; if the decoded value meets the
threshold, the call succeeds, sets lastPaymentTimestamp to the current
transaction time, and emits PaymentExecuted with the subscription id and
the rule's stored ruleId and recipient. -/
theorem C1_threshold_correctness (env : FHEEnv) (s : State) (sender : Address)
    (now : Nat) (sid : String) (clear proof : Bytes) (v : Nat)
    (h : subExists s sid)
    (h₁ : (lookupSub s sid).isActive = true)
    (h₂ : (lookupRule s (lookupSub s sid).ruleId).isActive = true)
    (h₃ : env.checkSignatures
      [(lookupRule s (lookupSub s sid).ruleId).encryptedThreshold]
      clear proof = true)
    (h₄ : env.decodeU32 clear = some v) :
    (v < (lookupRule s (lookupSub s sid).ruleId).publicThreshold →
      executePayment env s now sid clear proof = .error .ThresholdNotMet ∧
      applyOp env s (Op.execPaymentOp sender now sid clear proof) = s) ∧
    ((lookupRule s (lookupSub s sid).ruleId).publicThreshold ≤ v →
      ∃ s₁, executePayment env s now sid clear proof = .ok s₁ ∧
        (lookupSub s₁ sid).lastPaymentTimestamp = now ∧
        s₁.events = s.events ++
          [Event.PaymentExecuted sid
            (lookupRule s (lookupSub s sid).ruleId).ruleId
            (lookupRule s (lookupSub s sid).ruleId).recipient] ∧
        applyOp env s (Op.execPaymentOp sender now sid clear proof) = s₁) := by
  constructor
  · intro hlt
    have he := executePayment_thresholdNotMet env s now sid clear proof v
      h h₁ h₂ h₃ h₄ hlt
    exact ⟨he, applyOp_of_error env s _ _ he⟩
  · intro hge
    have he := executePayment_ok env s now sid clear proof v h h₁ h₂ h₃ h₄ hge
    refine ⟨_, he, ?_, rfl, applyOp_of_ok env s _ _ he⟩
    simp [lookupSub, mapFind_insert_self]

/-- Witness for C1 at a concrete state: threshold 100, verified clear value
99 fails ThresholdNotMet without touching the state, verified clear value
100 succeeds and stamps the timestamp. -/
theorem C1_threshold_correctness_witness :
    (executePayment envW sW 42 "s1" [99] [1] = .error .ThresholdNotMet ∧
      applyOp envW sW (Op.execPaymentOp 0 42 "s1" [99] [1]) = sW) ∧
    (∃ s₁, executePayment envW sW 42 "s1" [100] [1] = .ok s₁ ∧
      (lookupSub s₁ "s1").lastPaymentTimestamp = 42 ∧
      s₁.events = sW.events ++
        [Event.PaymentExecuted "s1"
          (lookupRule sW (lookupSub sW "s1").ruleId).ruleId
          (lookupRule sW (lookupSub sW "s1").ruleId).recipient] ∧
      applyOp envW sW (Op.execPaymentOp 0 42 "s1" [100] [1]) = s₁) :=
  ⟨(C1_threshold_correctness envW sW 0 42 "s1" [99] [1] 99 (by decide)
      (by decide) (by decide) (by decide) (by decide)).1 (by decide),
   (C1_threshold_correctness envW sW 0 42 "s1" [100] [1] 100 (by decide)
      (by decide) (by decide) (by decide) (by decide)).2 (by decide)⟩

/-- Claim C2: executePayment fails NotFound when no subscription with the
given id exists, InactiveEntity when the subscription is disabled, and
InactiveEntity when the subscription's rule is disabled; in particular,
after the creator's disableRule on the rule of an existing active
subscription, executePayment for that subscription fails InactiveEntity. -/
theorem C2_liveness_gating (env : FHEEnv) (s : State) (now : Nat)
    (sid : String) (clear proof : Bytes) :
    (¬ subExists s sid →
      executePayment env s now sid clear proof = .error .NotFound) ∧
    (subExists s sid → ¬ ((lookupSub s sid).isActive = true) →
      executePayment env s now sid clear proof = .error .InactiveEntity) ∧
    (subExists s sid → (lookupSub s sid).isActive = true →
      ¬ ((lookupRule s (lookupSub s sid).ruleId).isActive = true) →
      executePayment env s now sid clear proof = .error .InactiveEntity) ∧
    (∀ rid, ruleExists s rid → subExists s sid →
      (lookupSub s sid).isActive = true → (lookupSub s sid).ruleId = rid →
      ∃ s₁, disableRule s (lookupRule s rid).creator rid = .ok s₁ ∧
        executePayment env s₁ now sid clear proof = .error .InactiveEntity) := by
  refine ⟨executePayment_notFound env s now sid clear proof,
    executePayment_subInactive env s now sid clear proof,
    executePayment_ruleInactive env s now sid clear proof, ?_⟩
  intro rid hrule hsub hact hrid
  refine ⟨_, disableRule_ok s (lookupRule s rid).creator rid hrule rfl, ?_⟩
  apply executePayment_ruleInactive
  · exact hsub
  · exact hact
  · show ¬ ((lookupRule _ (lookupSub s sid).ruleId).isActive = true)
    rw [hrid]
    simp [lookupRule, mapFind_insert_self]

/-- Witness for C2: a missing id fails NotFound, the disabled subscription
s2 fails InactiveEntity, s1 under the disabled rule fails InactiveEntity,
and the disable-then-execute scenario plays out concretely. -/
theorem C2_liveness_gating_witness :
    executePayment envW sW 20 "zz" [100] [1] = .error .NotFound ∧
    executePayment envW sW 20 "s2" [100] [1] = .error .InactiveEntity ∧
    executePayment envW sWr 20 "s1" [100] [1] = .error .InactiveEntity ∧
    (∃ s₁, disableRule sW (lookupRule sW "r1").creator "r1" = .ok s₁ ∧
      executePayment envW s₁ 20 "s1" [100] [1] = .error .InactiveEntity) :=
  ⟨(C2_liveness_gating envW sW 20 "zz" [100] [1]).1 (by decide),
   (C2_liveness_gating envW sW 20 "s2" [100] [1]).2.1 (by decide) (by decide),
   (C2_liveness_gating envW sWr 20 "s1" [100] [1]).2.2.1 (by decide)
     (by decide) (by decide),
   (C2_liveness_gating envW sW 20 "s1" [100] [1]).2.2.2 "r1" (by decide)
     (by decide) (by decide) (by decide)⟩

/-- Claim C3: every failing invocation of a mutating operation leaves the
entire state (rules, subscriptions, enumeration lists, rule-to-subscription
index, and event log) unchanged, under the ledger's revert-on-failure
transaction semantics. -/
theorem C3_failure_atomicity (env : FHEEnv) (s : State) (op : Op)
    (e : ContractError) (h : stepOp env s op = .error e) :
    applyOp env s op = s := by
  unfold applyOp
  rw [h]

/-- Witness for C3: executePayment with a tampered proof (clear value 150
would satisfy the threshold, but the proof bytes are [2] instead of the
verifying [1]) fails InvalidProof and mutates nothing. -/
theorem C3_failure_atomicity_witness :
    stepOp envW sW (Op.execPaymentOp 5 99 "s1" [150] [2]) =
      .error .InvalidProof ∧
    applyOp envW sW (Op.execPaymentOp 5 99 "s1" [150] [2]) = sW :=
  ⟨by rfl, C3_failure_atomicity envW sW (Op.execPaymentOp 5 99 "s1" [150] [2])
    ContractError.InvalidProof (by rfl)⟩

/-- Claim C5: for an existing rule, disableRule by any caller other than
the stored creator fails Unauthorized and changes nothing, while the
creator's call succeeds and clears isActive; symmetrically for
disableSubscription and the stored subscriber. -/
theorem C5_disable_authorization (s : State) (sender : Address)
    (rid sid : String) :
    (ruleExists s rid → sender ≠ (lookupRule s rid).creator →
      disableRule s sender rid = .error .Unauthorized ∧
      ∀ env now, applyOp env s (Op.disableRuleOp sender now rid) = s) ∧
    (ruleExists s rid →
      ∃ s₁, disableRule s (lookupRule s rid).creator rid = .ok s₁ ∧
        lookupRule s₁ rid = { lookupRule s rid with isActive := false } ∧
        (lookupRule s₁ rid).isActive = false) ∧
    (subExists s sid → sender ≠ (lookupSub s sid).subscriber →
      disableSubscription s sender sid = .error .Unauthorized ∧
      ∀ env now, applyOp env s (Op.disableSubOp sender now sid) = s) ∧
    (subExists s sid →
      ∃ s₁, disableSubscription s (lookupSub s sid).subscriber sid = .ok s₁ ∧
        lookupSub s₁ sid = { lookupSub s sid with isActive := false } ∧
        (lookupSub s₁ sid).isActive = false) := by
  refine ⟨fun h h₁ => ?_, fun h => ?_, fun h h₁ => ?_, fun h => ?_⟩
  · have he := disableRule_unauthorized s sender rid h h₁
    exact ⟨he, fun env now => applyOp_of_error env s _ _ he⟩
  · refine ⟨_, disableRule_ok s (lookupRule s rid).creator rid h rfl, ?_, ?_⟩
    · simp [lookupRule, mapFind_insert_self]
    · simp [lookupRule, mapFind_insert_self]
  · have he := disableSubscription_unauthorized s sender sid h h₁
    exact ⟨he, fun env now => applyOp_of_error env s _ _ he⟩
  · refine ⟨_, disableSubscription_ok s (lookupSub s sid).subscriber sid h rfl, ?_, ?_⟩
    · simp [lookupSub, mapFind_insert_self]
    · simp [lookupSub, mapFind_insert_self]

/-- Witness for C5 at sW: account 9 can disable neither r1 (creator 1) nor
s1 (subscriber 3); the creator and the subscriber succeed. -/
theorem C5_disable_authorization_witness :
    (disableRule sW 9 "r1" = .error .Unauthorized ∧
      applyOp envW sW (Op.disableRuleOp 9 15 "r1") = sW) ∧
    (∃ s₁, disableRule sW (lookupRule sW "r1").creator "r1" = .ok s₁ ∧
      lookupRule s₁ "r1" = { lookupRule sW "r1" with isActive := false } ∧
      (lookupRule s₁ "r1").isActive = false) ∧
    (disableSubscription sW 9 "s1" = .error .Unauthorized ∧
      applyOp envW sW (Op.disableSubOp 9 15 "s1") = sW) ∧
    (∃ s₁, disableSubscription sW (lookupSub sW "s1").subscriber "s1" = .ok s₁ ∧
      lookupSub s₁ "s1" = { lookupSub sW "s1" with isActive := false } ∧
      (lookupSub s₁ "s1").isActive = false) :=
  ⟨⟨((C5_disable_authorization sW 9 "r1" "s1").1 (by decide) (by decide)).1,
    ((C5_disable_authorization sW 9 "r1" "s1").1 (by decide) (by decide)).2 envW 15⟩,
   (C5_disable_authorization sW 9 "r1" "s1").2.1 (by decide),
   ⟨((C5_disable_authorization sW 9 "r1" "s1").2.2.1 (by decide) (by decide)).1,
    ((C5_disable_authorization sW 9 "r1" "s1").2.2.1 (by decide) (by decide)).2 envW 15⟩,
   (C5_disable_authorization sW 9 "r1" "s1").2.2.2 (by decide)⟩

/-- Claim C9: executePayment enforces no minimum interval between
executions: whenever a payment executes for a subscription, a second call
for the same subscription with a verifying proof and a qualifying decoded
value also succeeds, at any second timestamp, however close (now₂ is
unconstrained and may equal now₁). -/
theorem C9_no_minimum_interval (env : FHEEnv) (s : State) (now₁ now₂ : Nat)
    (sid : String) (clear₁ proof₁ clear₂ proof₂ : Bytes) (v₁ v₂ : Nat)
    (h : subExists s sid)
    (h₁ : (lookupSub s sid).isActive = true)
    (h₂ : (lookupRule s (lookupSub s sid).ruleId).isActive = true)
    (h₃ : env.checkSignatures
      [(lookupRule s (lookupSub s sid).ruleId).encryptedThreshold]
      clear₁ proof₁ = true)
    (h₄ : env.decodeU32 clear₁ = some v₁)
    (h₅ : (lookupRule s (lookupSub s sid).ruleId).publicThreshold ≤ v₁)
    (h₆ : env.checkSignatures
      [(lookupRule s (lookupSub s sid).ruleId).encryptedThreshold]
      clear₂ proof₂ = true)
    (h₇ : env.decodeU32 clear₂ = some v₂)
    (h₈ : (lookupRule s (lookupSub s sid).ruleId).publicThreshold ≤ v₂) :
    ∃ s₁ s₂, executePayment env s now₁ sid clear₁ proof₁ = .ok s₁ ∧
      (lookupSub s₁ sid).lastPaymentTimestamp = now₁ ∧
      executePayment env s₁ now₂ sid clear₂ proof₂ = .ok s₂ ∧
      (lookupSub s₂ sid).lastPaymentTimestamp = now₂ := by
  have he₁ := executePayment_ok env s now₁ sid clear₁ proof₁ v₁ h h₁ h₂ h₃ h₄ h₅
  refine ⟨_, _, he₁, ?_,
    executePayment_ok env _ now₂ sid clear₂ proof₂ v₂ ?_ ?_ ?_ ?_ h₇ ?_, ?_⟩
  · simp [lookupSub, mapFind_insert_self]
  · show 0 < (lookupSub _ sid).subscriptionId.length
    simpa [lookupSub, mapFind_insert_self] using h
  · simpa [lookupSub, mapFind_insert_self] using h₁
  · simpa [lookupSub, lookupRule, mapFind_insert_self] using h₂
  · simpa [lookupSub, lookupRule, mapFind_insert_self] using h₆
  · simpa [lookupSub, lookupRule, mapFind_insert_self] using h₈
  · simp [lookupSub, mapFind_insert_self]

/-- Witness for C9: two back-to-back executions for s1 at the same
timestamp both succeed. -/
theorem C9_no_minimum_interval_witness :
    ∃ s₁ s₂, executePayment envW sW 42 "s1" [100] [1] = .ok s₁ ∧
      (lookupSub s₁ "s1").lastPaymentTimestamp = 42 ∧
      executePayment envW s₁ 42 "s1" [120] [1] = .ok s₂ ∧
      (lookupSub s₂ "s1").lastPaymentTimestamp = 42 :=
  C9_no_minimum_interval envW sW 42 42 "s1" [100] [1] [120] [1] 100 120
    (by decide) (by decide) (by decide) (by decide) (by decide) (by decide)
    (by decide) (by decide) (by decide)

/-- Claim C10: createSubscription performs no caller authorization: its
result is the same function of the state and arguments for any two caller
identities (and any block timestamps), and the stored subscriber is taken
solely from the subscriber argument. -/
theorem C10_no_caller_authorization (s : State) (sender₁ sender₂ : Address)
    (now₁ now₂ : Nat) (sid rid : String) (subscriber : Address) :
    createSubscription s sender₁ now₁ sid rid subscriber =
      createSubscription s sender₂ now₂ sid rid subscriber ∧
    (∀ s₁, createSubscription s sender₁ now₁ sid rid subscriber = .ok s₁ →
      (lookupSub s₁ sid).subscriber = subscriber) := by
  constructor
  · rfl
  · intro s₁ h
    obtain ⟨_, _, _, hs₁⟩ := createSubscription_ok_inv h
    subst hs₁
    simp [lookupSub, mapFind_insert_self]

/-- Witness for C10: accounts 7 and 8 get the identical result creating s9
on r1 for subscriber 4, and the stored subscriber is 4. -/
theorem C10_no_caller_authorization_witness :
    createSubscription sW 7 0 "s9" "r1" 4 =
      createSubscription sW 8 1 "s9" "r1" 4 ∧
    (lookupSub (applyOp envW sW (Op.createSubOp 7 0 "s9" "r1" 4)) "s9").subscriber = 4 :=
  ⟨(C10_no_caller_authorization sW 7 8 0 1 "s9" "r1" 4).1,
   (C10_no_caller_authorization sW 7 8 0 1 "s9" "r1" 4).2
     (applyOp envW sW (Op.createSubOp 7 0 "s9" "r1" 4)) (by rfl)⟩

/-! ### States reachable with the empty-string identifier, exercising the
sentinel existence check -/

/-- The state after a successful createPaymentRule with the empty ruleId:
the stored record's ruleId field is empty, so the contract's existence
check still reports the key as absent. -/
def sE1 : State := applyOp envW emptyState (Op.createRuleOp 1 0 "" 7 [0] 100 2 "d")

/-- sE1 after a second successful createPaymentRule with the same (empty)
ruleId by a different account: the stored rule is replaced. -/
def sE2 : State := applyOp envW sE1 (Op.createRuleOp 2 5 "" 8 [0] 50 3 "e")

/-- The state after one successful createPaymentRule with ruleId r1. -/
def sWr1 : State := applyOp envW emptyState (Op.createRuleOp 1 0 "r1" 7 [0] 100 2 "d")

/-- sWr1 after a successful createSubscription with subscriptionId s1. -/
def sWs1 : State := applyOp envW sWr1 (Op.createSubOp 1 11 "s1" "r1" 3)

/-- Counterexample to claim C4 as stated: with the empty-string ruleId, the
first createPaymentRule succeeds, yet a second createPaymentRule with the
same ruleId does not fail DuplicateId — it succeeds as well, because the
contract's duplicate check tests the stored record's ruleId field for
nonzero length and the stored field is the empty string. -/
theorem C4_counterexample :
    createPaymentRule envW emptyState 1 0 "" 7 [0] 100 2 "d" = .ok sE1 ∧
    createPaymentRule envW sE1 2 5 "" 8 [0] 50 3 "e" = .ok sE2 ∧
    createPaymentRule envW sE1 2 5 "" 8 [0] 50 3 "e" ≠ .error .DuplicateId := by
  have hok : createPaymentRule envW sE1 2 5 "" 8 [0] 50 3 "e" = .ok sE2 := rfl
  exact ⟨rfl, hok, fun hc => Except.noConfusion (hok.symm.trans hc)⟩

/-- Claim C4 (amended): for every nonempty ruleId, after a successful
createPaymentRule a second createPaymentRule with the same ruleId fails
DuplicateId and leaves the state, in particular the stored rule, unchanged;
symmetrically for every nonempty subscriptionId and createSubscription. -/
theorem C4_amended_uniqueness (env : FHEEnv) (s : State) :
    (∀ sender now rid ext pf pub recip desc s₁, rid ≠ "" →
      createPaymentRule env s sender now rid ext pf pub recip desc = .ok s₁ →
      ∀ sender₂ now₂ ext₂ pf₂ pub₂ recip₂ desc₂,
        createPaymentRule env s₁ sender₂ now₂ rid ext₂ pf₂ pub₂ recip₂ desc₂ =
          .error .DuplicateId ∧
        applyOp env s₁
          (Op.createRuleOp sender₂ now₂ rid ext₂ pf₂ pub₂ recip₂ desc₂) = s₁) ∧
    (∀ sender now sid rid subscriber s₁, sid ≠ "" →
      createSubscription s sender now sid rid subscriber = .ok s₁ →
      ∀ sender₂ now₂ rid₂ subscriber₂,
        createSubscription s₁ sender₂ now₂ sid rid₂ subscriber₂ =
          .error .DuplicateId ∧
        applyOp env s₁ (Op.createSubOp sender₂ now₂ sid rid₂ subscriber₂) = s₁) := by
  constructor
  · intro sender now rid ext pf pub recip desc s₁ hne hok
    intro sender₂ now₂ ext₂ pf₂ pub₂ recip₂ desc₂
    obtain ⟨_, _, hs₁⟩ := createPaymentRule_ok_inv hok
    have hlook : lookupRule s₁ rid =
        { ruleId := rid, encryptedThreshold := env.fromExternal ext pf,
          publicThreshold := pub, recipient := recip, description := desc,
          creator := sender, timestamp := now, isActive := true } := by
      rw [hs₁]
      simp [lookupRule, mapFind_insert_self]
    have hex : ruleExists s₁ rid := by
      show 0 < (lookupRule s₁ rid).ruleId.length
      rw [hlook]
      exact length_pos_of_ne_empty hne
    have hdup := createPaymentRule_dup env s₁ sender₂ now₂ rid ext₂ pf₂ pub₂
      recip₂ desc₂ hex
    exact ⟨hdup, applyOp_of_error env s₁ _ _ hdup⟩
  · intro sender now sid rid subscriber s₁ hne hok sender₂ now₂ rid₂ subscriber₂
    obtain ⟨_, _, _, hs₁⟩ := createSubscription_ok_inv hok
    have hlook : lookupSub s₁ sid =
        { subscriptionId := sid, ruleId := rid, subscriber := subscriber,
          lastPaymentTimestamp := 0, isActive := true } := by
      rw [hs₁]
      simp [lookupSub, mapFind_insert_self]
    have hex : subExists s₁ sid := by
      show 0 < (lookupSub s₁ sid).subscriptionId.length
      rw [hlook]
      exact length_pos_of_ne_empty hne
    have hdup := createSubscription_dup s₁ sender₂ now₂ sid rid₂ subscriber₂ hex
    exact ⟨hdup, applyOp_of_error env s₁ _ _ hdup⟩

/-- Witness for the amended C4: recreating r1 fails DuplicateId and changes
nothing; recreating s1 fails DuplicateId and changes nothing. -/
theorem C4_amended_uniqueness_witness :
    (createPaymentRule envW sWr1 2 5 "r1" 8 [0] 50 3 "e" = .error .DuplicateId ∧
      applyOp envW sWr1 (Op.createRuleOp 2 5 "r1" 8 [0] 50 3 "e") = sWr1) ∧
    (createSubscription sWs1 9 0 "s1" "r1" 6 = .error .DuplicateId ∧
      applyOp envW sWs1 (Op.createSubOp 9 0 "s1" "r1" 6) = sWs1) :=
  ⟨(C4_amended_uniqueness envW emptyState).1 1 0 "r1" 7 [0] 100 2 "d" sWr1
     (by decide) (by rfl) 2 5 8 [0] 50 3 "e",
   (C4_amended_uniqueness envW sWr1).2 1 11 "s1" "r1" 3 sWs1
     (by decide) (by rfl) 9 0 "r1" 6⟩

/-- Counterexample to claim C6 as stated: starting from the empty state, a
rule is created with the empty ruleId (the call succeeds and stores a
rule), and a later createPaymentRule with the same ruleId succeeds and
replaces the stored rule — the ruleId is reused and the creator field of
the stored record changes from 1 to 2. -/
theorem C6_counterexample :
    createPaymentRule envW emptyState 1 0 "" 7 [0] 100 2 "d" = .ok sE1 ∧
    (lookupRule sE1 "").creator = 1 ∧
    (lookupRule sE1 "").publicThreshold = 100 ∧
    createPaymentRule envW sE1 2 5 "" 8 [0] 50 3 "e" = .ok sE2 ∧
    (lookupRule sE2 "").creator = 2 ∧
    (lookupRule sE2 "").publicThreshold = 50 :=
  ⟨rfl, rfl, rfl, rfl, rfl, rfl⟩

/-- Claim C6 (amended): over every transaction sequence from the empty
state, once a rule passes the contract's existence check (as every rule
created under a nonempty ruleId does), no later operation replaces it: its
ruleId, ciphertext handle, publicThreshold, recipient, description,
creator and timestamp never change, once isActive is false it never
returns to true, and rules and subscriptions are never deleted. -/
theorem C6_amended_immutability (env : FHEEnv) (pre post : List Op)
    (rid sid : String) :
    (ruleExists (run env emptyState pre) rid →
      ruleExists (run env emptyState (pre ++ post)) rid ∧
      (lookupRule (run env emptyState (pre ++ post)) rid).ruleId =
        (lookupRule (run env emptyState pre) rid).ruleId ∧
      (lookupRule (run env emptyState (pre ++ post)) rid).encryptedThreshold =
        (lookupRule (run env emptyState pre) rid).encryptedThreshold ∧
      (lookupRule (run env emptyState (pre ++ post)) rid).publicThreshold =
        (lookupRule (run env emptyState pre) rid).publicThreshold ∧
      (lookupRule (run env emptyState (pre ++ post)) rid).recipient =
        (lookupRule (run env emptyState pre) rid).recipient ∧
      (lookupRule (run env emptyState (pre ++ post)) rid).description =
        (lookupRule (run env emptyState pre) rid).description ∧
      (lookupRule (run env emptyState (pre ++ post)) rid).creator =
        (lookupRule (run env emptyState pre) rid).creator ∧
      (lookupRule (run env emptyState (pre ++ post)) rid).timestamp =
        (lookupRule (run env emptyState pre) rid).timestamp ∧
      ((lookupRule (run env emptyState pre) rid).isActive = false →
        (lookupRule (run env emptyState (pre ++ post)) rid).isActive = false)) ∧
    (subExists (run env emptyState pre) sid →
      subExists (run env emptyState (pre ++ post)) sid) := by
  rw [run_append]
  constructor
  · intro h
    obtain ⟨hex, hev⟩ := run_ruleEvolves env post (run env emptyState pre) rid h
    obtain ⟨f₁, f₂, f₃, f₄, f₅, f₆, f₇, f₈⟩ := ruleEvolves_fields hev
    exact ⟨hex, f₁, f₂, f₃, f₄, f₅, f₆, f₇, f₈⟩
  · intro h
    exact run_subExists env post (run env emptyState pre) sid h

/-- Witness for the amended C6: after the opsW history followed by a
disableRule, rule r1 still exists with its original creator and the
subscription s1 still exists. -/
theorem C6_amended_immutability_witness :
    ruleExists (run envW emptyState (opsW ++ [Op.disableRuleOp 1 14 "r1"])) "r1" ∧
    (lookupRule (run envW emptyState (opsW ++ [Op.disableRuleOp 1 14 "r1"])) "r1").creator =
      (lookupRule (run envW emptyState opsW) "r1").creator ∧
    subExists (run envW emptyState (opsW ++ [Op.disableRuleOp 1 14 "r1"])) "s1" :=
  ⟨((C6_amended_immutability envW opsW [Op.disableRuleOp 1 14 "r1"] "r1" "s1").1
      (by decide)).1,
   ((C6_amended_immutability envW opsW [Op.disableRuleOp 1 14 "r1"] "r1" "s1").1
      (by decide)).2.2.2.2.2.2.1,
   (C6_amended_immutability envW opsW [Op.disableRuleOp 1 14 "r1"] "r1" "s1").2
     (by decide)⟩

/-- Counterexample to claim C7 as stated: in a state whose subscription s1
already exists, createSubscription for s1 referencing a nonexistent ruleId
fails DuplicateId, not NotFound — the duplicate check runs first. -/
theorem C7_counterexample :
    ¬ ruleExists sW "missing" ∧
    createSubscription sW 9 0 "s1" "missing" 4 = .error .DuplicateId ∧
    createSubscription sW 9 0 "s1" "missing" 4 ≠ .error .NotFound := by
  have hdup : createSubscription sW 9 0 "s1" "missing" 4 = .error .DuplicateId := rfl
  refine ⟨by decide, hdup, fun hc => ?_⟩
  injection hdup.symm.trans hc with h
  exact ContractError.noConfusion h

/-- Claim C7 (amended): when the subscriptionId is not already taken,
createSubscription referencing a ruleId with no rule fails NotFound and
referencing an existing inactive rule fails InactiveEntity; in both cases
the entire state — subscriptions, enumeration lists and the
rule-to-subscriptions index — is unchanged. -/
theorem C7_amended_referential (s : State) (sender : Address) (now : Nat)
    (sid rid : String) (subscriber : Address) (hfresh : ¬ subExists s sid) :
    (¬ ruleExists s rid →
      createSubscription s sender now sid rid subscriber = .error .NotFound ∧
      ∀ env, applyOp env s (Op.createSubOp sender now sid rid subscriber) = s) ∧
    (ruleExists s rid → ¬ ((lookupRule s rid).isActive = true) →
      createSubscription s sender now sid rid subscriber = .error .InactiveEntity ∧
      ∀ env, applyOp env s (Op.createSubOp sender now sid rid subscriber) = s) := by
  constructor
  · intro h
    have he := createSubscription_notFound s sender now sid rid subscriber hfresh h
    exact ⟨he, fun env => applyOp_of_error env s _ _ he⟩
  · intro h h₁
    have he := createSubscription_inactive s sender now sid rid subscriber hfresh h h₁
    exact ⟨he, fun env => applyOp_of_error env s _ _ he⟩

/-- Argument bundle for one createPaymentRule call. -/
structure CreateArgs where
  sender : Address
  now : Nat
  ruleId : String
  encryptedThreshold : Nat
  inputProof : Bytes
  publicThreshold : Nat
  recipient : Address
  description : String

def createOpOf (a : CreateArgs) : Op :=
  Op.createRuleOp a.sender a.now a.ruleId a.encryptedThreshold a.inputProof
    a.publicThreshold a.recipient a.description

/-- Run a sequence of createPaymentRule calls. -/
def runCreates (env : FHEEnv) (s : State) (args : List CreateArgs) : State :=
  run env s (args.map createOpOf)

def isOkE {ε α : Type} (r : Except ε α) : Bool :=
  match r with
  | .ok _ => true
  | .error _ => false

theorem getPaymentRule_isOk (s : State) (rid : String) (h : ruleExists s rid) :
    isOkE (getPaymentRule s rid) = true := by
  unfold getPaymentRule
  rw [if_pos h]
  rfl

/-- Main induction behind C8: from any base state in which the requested
rule ids are fresh, a batch of createPaymentRule calls with distinct
nonempty ids and valid ciphertexts appends exactly those ids to the
enumeration list, emits exactly one creation event per call, and leaves
every created rule present. -/
theorem runCreates_spec (env : FHEEnv) (args : List CreateArgs) :
    ∀ s : State,
    (∀ a ∈ args, a.ruleId ≠ "" ∧
      env.isInitialized (env.fromExternal a.encryptedThreshold a.inputProof) = true ∧
      ¬ ruleExists s a.ruleId) →
    (args.map CreateArgs.ruleId).Nodup →
    (runCreates env s args).ruleIds = s.ruleIds ++ args.map CreateArgs.ruleId ∧
    (runCreates env s args).events = s.events ++
      args.map (fun a => Event.PaymentRuleCreated a.ruleId a.sender) ∧
    ∀ a ∈ args, ruleExists (runCreates env s args) a.ruleId := by
  induction args with
  | nil =>
    intro s _ _
    exact ⟨by simp [runCreates, run], by simp [runCreates, run], by simp⟩
  | cons a rest ih =>
    intro s hall hnodup
    obtain ⟨hne, hinit, hfresh⟩ := hall a (List.mem_cons_self a rest)
    obtain ⟨hnotin, hnodup₁⟩ := List.nodup_cons.mp hnodup
    have hok := createPaymentRule_ok env s a.sender a.now a.ruleId
      a.encryptedThreshold a.inputProof a.publicThreshold a.recipient
      a.description hfresh hinit
    have happ : applyOp env s (createOpOf a) =
        { s with
          paymentRules := mapInsert s.paymentRules a.ruleId
            { ruleId := a.ruleId,
              encryptedThreshold := env.fromExternal a.encryptedThreshold a.inputProof,
              publicThreshold := a.publicThreshold, recipient := a.recipient,
              description := a.description, creator := a.sender,
              timestamp := a.now, isActive := true },
          ruleIds := s.ruleIds ++ [a.ruleId],
          events := s.events ++ [Event.PaymentRuleCreated a.ruleId a.sender] } :=
      applyOp_of_ok env s (createOpOf a) _ hok
    have hchain : runCreates env s (a :: rest) =
        runCreates env (applyOp env s (createOpOf a)) rest := rfl
    have hlook₁ : ∀ rid₁ : String, rid₁ ≠ a.ruleId →
        lookupRule (applyOp env s (createOpOf a)) rid₁ = lookupRule s rid₁ := by
      intro rid₁ h₁
      rw [happ]
      simp [lookupRule, mapFind_insert_ne _ _ h₁]
    have hex₁ : ruleExists (applyOp env s (createOpOf a)) a.ruleId := by
      show 0 < (lookupRule (applyOp env s (createOpOf a)) a.ruleId).ruleId.length
      rw [happ]
      simp [lookupRule, mapFind_insert_self]
      exact length_pos_of_ne_empty hne
    have hall₁ : ∀ b ∈ rest, b.ruleId ≠ "" ∧
        env.isInitialized (env.fromExternal b.encryptedThreshold b.inputProof) = true ∧
        ¬ ruleExists (applyOp env s (createOpOf a)) b.ruleId := by
      intro b hb
      obtain ⟨hbne, hbinit, hbfresh⟩ := hall b (List.mem_cons_of_mem a hb)
      refine ⟨hbne, hbinit, ?_⟩
      have hbna : b.ruleId ≠ a.ruleId := fun he =>
        hnotin (he ▸ List.mem_map_of_mem CreateArgs.ruleId hb)
      intro hcon
      apply hbfresh
      show 0 < (lookupRule s b.ruleId).ruleId.length
      rw [← hlook₁ b.ruleId hbna]
      exact hcon
    obtain ⟨ihids, ihev, ihex⟩ := ih (applyOp env s (createOpOf a)) hall₁ hnodup₁
    refine ⟨?_, ?_, ?_⟩
    · rw [hchain, ihids, happ]
      simp
    · rw [hchain, ihev, happ]
      simp
    · intro b hb
      rcases List.mem_cons.mp hb with hb₁ | hb₁
      · rw [hchain, hb₁]
        exact (run_ruleEvolves env (rest.map createOpOf)
          (applyOp env s (createOpOf a)) a.ruleId hex₁).1
      · rw [hchain]
        exact ihex b hb₁

/-- Counterexample to claim C8 as stated: one successful createPaymentRule
with the (trivially distinct) ruleId "" makes getAllRuleIds return that id,
yet getPaymentRule on it fails NotFound, so not every returned id is
retrievable. -/
theorem C8_counterexample :
    createPaymentRule envW emptyState 1 0 "" 7 [0] 100 2 "d" = .ok sE1 ∧
    getAllRuleIds sE1 = [""] ∧
    getPaymentRule sE1 "" = .error .NotFound :=
  ⟨rfl, rfl, rfl⟩

/-- Claim C8 (amended): after N successful createPaymentRule calls with
distinct nonempty ruleIds from the empty state (and no other operations),
getAllRuleIds returns exactly those N ids in insertion order, one creation
event was emitted per call, and each returned id is retrievable via
getPaymentRule without error. -/
theorem C8_amended_enumeration (env : FHEEnv) (args : List CreateArgs)
    (h : ∀ a ∈ args, a.ruleId ≠ "" ∧
      env.isInitialized (env.fromExternal a.encryptedThreshold a.inputProof) = true)
    (hnodup : (args.map CreateArgs.ruleId).Nodup) :
    getAllRuleIds (runCreates env emptyState args) = args.map CreateArgs.ruleId ∧
    (runCreates env emptyState args).events =
      args.map (fun a => Event.PaymentRuleCreated a.ruleId a.sender) ∧
    ∀ rid ∈ getAllRuleIds (runCreates env emptyState args),
      isOkE (getPaymentRule (runCreates env emptyState args) rid) = true := by
  have hall : ∀ a ∈ args, a.ruleId ≠ "" ∧
      env.isInitialized (env.fromExternal a.encryptedThreshold a.inputProof) = true ∧
      ¬ ruleExists emptyState a.ruleId := by
    intro a ha
    exact ⟨(h a ha).1, (h a ha).2,
      by simp [lookupRule, emptyState, mapFind, defaultRule]⟩
  obtain ⟨hids, hev, hex⟩ := runCreates_spec env args emptyState hall hnodup
  have hids₁ : getAllRuleIds (runCreates env emptyState args) =
      args.map CreateArgs.ruleId := by
    unfold getAllRuleIds
    rw [hids]
    rfl
  refine ⟨hids₁, by rw [hev]; rfl, ?_⟩
  intro rid hmem
  rw [hids₁] at hmem
  obtain ⟨a, ha, hrid⟩ := List.mem_map.mp hmem
  exact hrid ▸ getPaymentRule_isOk _ _ (hex a ha)

/-- Two concrete rule creations instantiating the amended C8. -/
def argsW : List CreateArgs :=
  [{ sender := 1, now := 0, ruleId := "a", encryptedThreshold := 7,
     inputProof := [0], publicThreshold := 10, recipient := 2, description := "x" },
   { sender := 2, now := 1, ruleId := "b", encryptedThreshold := 8,
     inputProof := [0], publicThreshold := 20, recipient := 3, description := "y" }]

/-- Witness for the amended C8 at the two-element batch argsW. -/
theorem C8_amended_enumeration_witness :
    getAllRuleIds (runCreates envW emptyState argsW) =
      argsW.map CreateArgs.ruleId ∧
    (runCreates envW emptyState argsW).events =
      argsW.map (fun a => Event.PaymentRuleCreated a.ruleId a.sender) ∧
    ∀ rid ∈ getAllRuleIds (runCreates envW emptyState argsW),
      isOkE (getPaymentRule (runCreates envW emptyState argsW) rid) = true :=
  C8_amended_enumeration envW argsW (by decide) (by decide)

/-- Witness for the amended C7: a fresh subscription id on a missing rule
fails NotFound; on the disabled rule r1 (state sWr) it fails
InactiveEntity; both leave the state unchanged. -/
theorem C7_amended_referential_witness :
    (createSubscription sW 9 0 "s9" "zz" 4 = .error .NotFound ∧
      applyOp envW sW (Op.createSubOp 9 0 "s9" "zz" 4) = sW) ∧
    (createSubscription sWr 9 0 "s9" "r1" 4 = .error .InactiveEntity ∧
      applyOp envW sWr (Op.createSubOp 9 0 "s9" "r1" 4) = sWr) :=
  ⟨⟨((C7_amended_referential sW 9 0 "s9" "zz" 4 (by decide)).1 (by decide)).1,
    ((C7_amended_referential sW 9 0 "s9" "zz" 4 (by decide)).1 (by decide)).2 envW⟩,
   ⟨((C7_amended_referential sWr 9 0 "s9" "r1" 4 (by decide)).2 (by decide) (by decide)).1,
    ((C7_amended_referential sWr 9 0 "s9" "r1" 4 (by decide)).2 (by decide) (by decide)).2 envW⟩⟩

end AutoPay
